import Mathlib

/-!
Shallow embedding of `src/bot.py` (twitch-stenographer): the ORM row
classes with their value-equality (`ComparableRow`), the per-message
ingestion handler `Client.event_message`, the channel reconciliation
routine `Client.refresh_channels`, and the telemetry counter.

Python strings are `String`, `datetime` values are `Nat` ticks,
`Optional` fields are `Option`, SQL tables are lists of rows.
-/

namespace Steno

/-- Result of Python `int(s, 16)` over the raw hex digits: `none` models
the `ValueError` that `int` raises on an empty or non-hex string. -/
def hexDigitVal (c : Char) : Option Nat :=
  if 48 ≤ c.toNat ∧ c.toNat ≤ 57 then some (c.toNat - 48)
  else if 97 ≤ c.toNat ∧ c.toNat ≤ 102 then some (c.toNat - 97 + 10)
  else if 65 ≤ c.toNat ∧ c.toNat ≤ 70 then some (c.toNat - 65 + 10)
  else none

def hexVal (s : String) : Option Nat :=
  if s = "" then none
  else
    s.data.foldl
      (fun acc c =>
        match acc, hexDigitVal c with
        | some n, some d => some (16 * n + d)
        | _, _ => none)
      (some 0)

/-- Python `s.removeprefix("#")` from `Chatter.from_message`, bot.py:160. -/
def removeHash (s : String) : String :=
  match s.data with
  | '#' :: rest => String.mk rest
  | _ => s

/-- Row of table `Message`, bot.py:66-86. -/
structure Message where
  id : String
  content : String
  timestamp : Nat
  chatter_name : String
  channel_name : String
deriving DecidableEq, Repr

/-- Row of table `FirstMessage`, bot.py:89-93: just the message id. -/
structure FirstMessage where
  id : String
deriving DecidableEq, Repr

/-- Row of table `Channel`, bot.py:109-123. -/
structure Channel where
  name : String
  timestamp : Nat
  id : Nat
deriving DecidableEq, Repr

/-- Source `Channel._values`, bot.py:122-123: every attribute except the
timestamp key component. -/
def Channel._values (r : Channel) : String × Nat :=
  (r.name, r.id)

/-- Row of table `Chatter`, bot.py:126-151. -/
structure Chatter where
  name : String
  timestamp : Nat
  channel : String
  badges : Option String
  id : Option Nat
  display_name : Option String
  color : Option Nat
  is_mod : Option Bool
  is_subscriber : Option Bool
  is_turbo : Option Bool
  is_vip : Option Bool
  prediction : Option String
deriving DecidableEq, Repr

/-- The 11-component tuple returned by `Chatter._values`
(bot.py:181-194), as a record; tuple equality in Python is
component-wise, exactly the derived equality here. -/
structure ChatterValues where
  name : String
  channel : String
  badges : Option String
  id : Option Nat
  display_name : Option String
  color : Option Nat
  is_mod : Option Bool
  is_subscriber : Option Bool
  is_turbo : Option Bool
  is_vip : Option Bool
  prediction : Option String
deriving DecidableEq, Repr

/-- Source `Chatter._values`, bot.py:181-194: every attribute except the
timestamp key component (channel context included). -/
def Chatter._values (r : Chatter) : ChatterValues :=
  { name := r.name, channel := r.channel, badges := r.badges, id := r.id
    display_name := r.display_name, color := r.color, is_mod := r.is_mod
    is_subscriber := r.is_subscriber, is_turbo := r.is_turbo
    is_vip := r.is_vip, prediction := r.prediction }

/-- Python `ComparableRow.__eq__` (bot.py:56-63) specialised to `Channel`:
rows of the same class are equal exactly when their `_values` agree. -/
def Channel.eqRow (a b : Channel) : Bool :=
  decide (a._values = b._values)

/-- Python `ComparableRow.__eq__` (bot.py:56-63) specialised to `Chatter`. -/
def Chatter.eqRow (a b : Chatter) : Bool :=
  decide (a._values = b._values)

/-- The dedup decision `last_channel_record != channel` of
bot.py:302, with `last` the `Optional` result of the latest-row query:
Python `None != row` is true, and `__ne__` is the negation of
`ComparableRow.__eq__`. This is the spec's `should_persist`. -/
def shouldPersistChannel (last : Option Channel) (cand : Channel) : Bool :=
  match last with
  | none => true
  | some l => !(l.eqRow cand)

/-- The dedup decision `last_chatter_record != chatter` of bot.py:306. -/
def shouldPersistChatter (last : Option Chatter) (cand : Chatter) : Bool :=
  match last with
  | none => true
  | some l => !(l.eqRow cand)

/-- Extended author data carried by a `twitchio.Chatter` author
(the attributes read by `Chatter.from_message`, bot.py:153-179).
`turbo` is the upstream boolean-as-string anomaly, kept as a string. -/
structure AuthorProfile where
  id : Option String
  display_name : Option String
  color : Option String
  badges : List (String × String)
  is_mod : Bool
  is_subscriber : Bool
  turbo : String
  is_vip : Bool
  prediction : Option String
deriving DecidableEq, Repr

/-- Author of the event, `message.author`: `some` profile models a `twitchio.Chatter`
author, `none` a `PartialChatter` with only a name (bot.py:260-271). -/
structure Author where
  name : String
  profile : Option AuthorProfile
deriving DecidableEq, Repr

/-- Result of `await message.channel.user()` (bot.py:257). -/
structure ChannelUser where
  name : String
  id : Nat
deriving DecidableEq, Repr

/-- The incoming `twitchio.Message` event, with the fields
`event_message` reads, plus the channel user it resolves. -/
structure TwitchMessage where
  id : String
  content : String
  timestamp : Nat
  author : Author
  channelName : String
  channelUser : ChannelUser
  first : Bool
deriving DecidableEq, Repr

/-- Source `Message.from_message`, bot.py:78-86. -/
def Message.from_message (m : TwitchMessage) : Message :=
  { id := m.id
    content := m.content
    timestamp := m.timestamp
    chatter_name := m.author.name
    channel_name := m.channelName }

/-- Source `Chatter.from_message`, bot.py:153-179, for an author carrying the
extended profile `p`.  `int(author.id)` and `int(color, 16)` raise in
Python on non-numeric input; no row is built there, modelled as `none`
(no claim exercises malformed numerics). -/
def Chatter.from_message (m : TwitchMessage) (p : AuthorProfile) : Chatter :=
  let chatter_id : Option Nat :=
    match p.id with
    | none => none
    | some s => s.toNat?
  let chatter_color : Option Nat :=
    match p.color with
    | none => none
    | some s => if s = "" then none else hexVal (removeHash s)
  let badges :=
    String.intercalate "," (p.badges.map fun kv => kv.1 ++ "/" ++ kv.2)
  { name := m.author.name
    timestamp := m.timestamp
    channel := m.channelName
    badges := some badges
    id := chatter_id
    display_name := p.display_name
    color := chatter_color
    is_mod := some p.is_mod
    is_subscriber := some p.is_subscriber
    is_turbo := some (p.turbo == "1")
    is_vip := some p.is_vip
    prediction := p.prediction }

/-- The `PartialChatter` branch of `event_message`, bot.py:267-271:
only name/timestamp/channel populated, every other column NULL. -/
def Chatter.bareRow (m : TwitchMessage) : Chatter :=
  { name := m.author.name
    timestamp := m.timestamp
    channel := m.channelName
    badges := none
    id := none
    display_name := none
    color := none
    is_mod := none
    is_subscriber := none
    is_turbo := none
    is_vip := none
    prediction := none }

/-- The candidate chatter row built by `event_message`, bot.py:260-271. -/
def chatterRowOf (m : TwitchMessage) : Chatter :=
  match m.author.profile with
  | some p => Chatter.from_message m p
  | none => Chatter.bareRow m

/-- The candidate channel row built by `event_message`, bot.py:272-274. -/
def channelRowOf (m : TwitchMessage) : Channel :=
  { name := m.channelUser.name
    timestamp := m.timestamp
    id := m.channelUser.id }

/-- The durable state: the four tables of `archive.db`
(`DeletedMessage` is never written by the code and omitted). -/
structure DB where
  messages : List Message
  firstMessages : List FirstMessage
  channels : List Channel
  chatters : List Chatter
deriving DecidableEq, Repr

/-- Source `LogCounter`, bot.py:203-212. -/
structure LogCounter where
  messages : Nat
  channels : Nat
  chatters : Nat
deriving DecidableEq, Repr

/-- Source `LogCounter.__init__` / `LogCounter.reset`, bot.py:204-212. -/
def LogCounter.reset : LogCounter :=
  { messages := 0, channels := 0, chatters := 0 }

/-- Model of `SELECT ... WHERE name = key ORDER BY timestamp DESC LIMIT 1`
over a list of rows, given the row's name and timestamp projections
(the `last_chatter_query` / `last_channel_query` of bot.py:279-290).
Keys are composite primary keys `(name, timestamp)`, so among rows
with one name no two share a timestamp and the maximum is unique. -/
def lastRow {α : Type} (name : α → String) (timestamp : α → Nat)
    (rows : List α) (key : String) : Option α :=
  (rows.filter fun r => name r == key).foldl
    (fun acc r =>
      match acc with
      | none => some r
      | some a => if timestamp a < timestamp r then some r else some a)
    none

/-- The pending-row set of a SQLAlchemy session: rows passed to
`session.add` but not yet flushed to the database. -/
structure Session where
  messages : List Message
  firstMessages : List FirstMessage
  channels : List Channel
  chatters : List Chatter
deriving DecidableEq, Repr

def Session.empty : Session :=
  { messages := [], firstMessages := [], channels := [], chatters := [] }

def Session.addMessage (s : Session) (r : Message) : Session :=
  { s with messages := s.messages ++ [r] }

def Session.addFirst (s : Session) (r : FirstMessage) : Session :=
  { s with firstMessages := s.firstMessages ++ [r] }

def Session.addChannel (s : Session) (r : Channel) : Session :=
  { s with channels := s.channels ++ [r] }

def Session.addChatter (s : Session) (r : Chatter) : Session :=
  { s with chatters := s.chatters ++ [r] }

/-- Committing a session flushes its pending rows into the database
atomically (the exit of `async with self.async_session.begin()`). -/
def Session.commit (db : DB) (s : Session) : DB :=
  { messages := db.messages ++ s.messages
    firstMessages := db.firstMessages ++ s.firstMessages
    channels := db.channels ++ s.channels
    chatters := db.chatters ++ s.chatters }

/-- The stream-uptime diagnostic logged by the `OperationalError`
handler, bot.py:313-326. -/
structure Diagnostic where
  now : Nat
  stream_started : Nat
  stream_uptime : Nat
deriving DecidableEq, Repr

/-- Result of one `event_message` invocation. `raised` records whether
an exception escaped the handler. `sessionLeak` holds the rows that
were passed to `session.add` after the session's transaction context
had already exited — they are never flushed to the database. -/
structure IngestOutcome where
  db : DB
  counter : LogCounter
  diagnostic : Option Diagnostic
  raised : Bool
  sessionLeak : Session
deriving DecidableEq, Repr

/-- Source `Client.event_message`, bot.py:248-326.

Inputs beyond the event itself model the collaborators:
`storageFails` — whether the storage work inside the `try` raises
`sqlalchemy.exc.OperationalError`; `now` — `datetime.now()`;
`streams` — the `started_at` values returned by
`self.fetch_streams(user_ids=[channel_user.id])`.

The `async with self.async_session.begin() as session:` block at
bot.py:293-295 contains ONLY the two SELECT queries; it commits and
closes the session at line 295.  Every `session.add` call
(bot.py:297-309) runs after that exit, on the closed session, so the
added rows are never flushed: the committed transaction is empty and
the database is unchanged.  The in-memory counters are still
incremented on that path. -/
def event_message (db : DB) (counter : LogCounter) (message : TwitchMessage)
    (storageFails : Bool) (now : Nat) (streams : List Nat) : IngestOutcome :=
  let message_row := Message.from_message message
  let chatter := chatterRowOf message
  let channel := channelRowOf message
  if storageFails then
    -- except sqlalchemy.exc.OperationalError (bot.py:310-326): the
    -- handler indexes `streams[0]`; when no stream is in progress the
    -- list is empty and the IndexError is not caught ("todo handle no
    -- stream in progress", bot.py:320), escaping the handler.
    match streams with
    | [] =>
        { db := db, counter := counter, diagnostic := none
          raised := true, sessionLeak := Session.empty }
    | stream_started :: _ =>
        { db := db, counter := counter
          diagnostic := some { now := now, stream_started := stream_started
                               stream_uptime := now - stream_started }
          raised := false, sessionLeak := Session.empty }
  else
    -- async with self.async_session.begin() as session: (bot.py:293-295)
    let last_chatter_record :=
      lastRow Chatter.name Chatter.timestamp db.chatters message.author.name
    let last_channel_record :=
      lastRow Channel.name Channel.timestamp db.channels message.channelName
    -- the block exits here: the transaction, holding no writes, commits
    let dbCommitted := Session.commit db Session.empty
    -- bot.py:297-309: session.add on the closed session, plus counters
    let s1 := Session.empty.addMessage message_row
    let counter1 := { counter with messages := counter.messages + 1 }
    let s2 := if message.first then s1.addFirst { id := message.id } else s1
    let persistChannel := shouldPersistChannel last_channel_record channel
    let s3 := if persistChannel then s2.addChannel channel else s2
    let counter2 :=
      if persistChannel then { counter1 with channels := counter1.channels + 1 }
      else counter1
    let persistChatter := shouldPersistChatter last_chatter_record chatter
    let s4 := if persistChatter then s3.addChatter chatter else s3
    let counter3 :=
      if persistChatter then { counter2 with chatters := counter2.chatters + 1 }
      else counter2
    -- the handler returns; s4's pending rows are discarded unflushed
    { db := dbCommitted, counter := counter3, diagnostic := none
      raised := false, sessionLeak := s4 }

/-- A network call issued by `refresh_channels`: a single batched
`part_channels` or `join_channels` request (bot.py:353, 356). -/
inductive NetCall where
  | part (channels : Finset String)
  | join (channels : Finset String)
deriving DecidableEq

def NetCall.isPart : NetCall → Bool
  | .part _ => true
  | .join _ => false

def NetCall.isJoin : NetCall → Bool
  | .part _ => false
  | .join _ => true

/-- The channel set a call touches. -/
def NetCall.channels : NetCall → Finset String
  | .part s => s
  | .join s => s

/-- Source `Client.refresh_channels`, bot.py:330-357, as the list of network
calls one run issues, in order.  `config` is the result of
`load_config()` followed by the `config["channels"]` lookup: `none`
models either `tomllib.TOMLDecodeError` or the `KeyError`, both of
which make the run return without touching membership (bot.py:333-343).
`connected` is `{channel.name for channel in self.connected_channels}`.
Channel names are compared verbatim — `frozenset` difference with no
case normalization (bot.py:345-349; compare the source's own remark
"todo this repeatedly reconnects if config gives uppercase",
bot.py:329). -/
def refresh_channels (config : Option (Finset String))
    (connected : Finset String) : List NetCall :=
  match config with
  | none => []
  | some target_channels =>
    let current_channels := connected
    let channels_to_leave := current_channels \ target_channels
    let channels_to_join := target_channels \ current_channels
    (if channels_to_leave.Nonempty then [NetCall.part channels_to_leave] else [])
      ++ (if channels_to_join.Nonempty then [NetCall.join channels_to_join] else [])

/-! Concrete fixtures used to evaluate the model. -/

def sampleProfile : AuthorProfile :=
  { id := some "123"
    display_name := some "Alice"
    color := some "#1A2B3C"
    badges := [("subscriber", "12")]
    is_mod := false
    is_subscriber := true
    turbo := "1"
    is_vip := false
    prediction := none }

/-- A profile whose color field is the empty string the upstream
sometimes sends (bot.py:159 comment). -/
def emptyColorProfile : AuthorProfile :=
  { sampleProfile with color := some "" }

def sampleMessage : TwitchMessage :=
  { id := "11111111-2222-3333-4444-555555555555"
    content := "hello"
    timestamp := 5
    author := { name := "alice", profile := some sampleProfile }
    channelName := "somechannel"
    channelUser := { name := "somechannel", id := 777 }
    first := true }

def emptyDB : DB :=
  { messages := [], firstMessages := [], channels := [], chatters := [] }

/-- The comparable-field equality the spec describes for chatters:
value equality over every semantic attribute except the timestamp key
component, with channel context comparable. Stated from the spec's
words, to be compared with the code's `_values` tuple. -/
def specChatterFieldsEq (p cand : Chatter) : Prop :=
  p.name = cand.name ∧ p.channel = cand.channel ∧ p.badges = cand.badges ∧
  p.id = cand.id ∧ p.display_name = cand.display_name ∧
  p.color = cand.color ∧ p.is_mod = cand.is_mod ∧
  p.is_subscriber = cand.is_subscriber ∧ p.is_turbo = cand.is_turbo ∧
  p.is_vip = cand.is_vip ∧ p.prediction = cand.prediction

/-- The comparable-field equality the spec describes for channels. -/
def specChannelFieldsEq (p cand : Channel) : Prop :=
  p.name = cand.name ∧ p.id = cand.id

/-- C2: the dedup decision persists the candidate iff the previous
snapshot is absent or some comparable field differs; equivalently
`should_persist` is false exactly when the previous snapshot exists
and every comparable field of the candidate equals its counterpart
(all semantic attributes except the timestamp key component, channel
context comparable for chatters). -/
theorem should_persist_false_iff_fields_equal
    (cand : Chatter) (prev : Option Chatter)
    (candC : Channel) (prevC : Option Channel) :
    (shouldPersistChatter prev cand = false ↔
      ∃ p, prev = some p ∧ specChatterFieldsEq p cand) ∧
    (shouldPersistChannel prevC candC = false ↔
      ∃ p, prevC = some p ∧ specChannelFieldsEq p candC) := by
  constructor
  · cases prev with
    | none => simp [shouldPersistChatter]
    | some p =>
        simp [shouldPersistChatter, Chatter.eqRow, Chatter._values,
          ChatterValues.mk.injEq, specChatterFieldsEq]
  · cases prevC with
    | none => simp [shouldPersistChannel]
    | some p =>
        simp [shouldPersistChannel, Channel.eqRow, Channel._values,
          Prod.ext_iff, specChannelFieldsEq]

theorem should_persist_false_iff_fields_equal_witness :
    shouldPersistChatter (some (chatterRowOf sampleMessage))
      (chatterRowOf sampleMessage) = false :=
  ((should_persist_false_iff_fields_equal (chatterRowOf sampleMessage)
      (some (chatterRowOf sampleMessage)) (channelRowOf sampleMessage)
      none).1).mpr
    ⟨chatterRowOf sampleMessage, rfl, by
      refine ⟨rfl, rfl, rfl, rfl, rfl, rfl, rfl, rfl, rfl, rfl, rfl⟩⟩

/-- C8: a color field `"#1A2B3C"` is stored as the integer `0x1A2B3C`
= 1715004; in general the stored color is the base-16 value of the
color string with its `"#"` prefix removed. -/
theorem chatter_color_is_hex_value (m : TwitchMessage) (p : AuthorProfile) :
    (∀ s, p.color = some s → s ≠ "" →
      (Chatter.from_message m p).color = hexVal (removeHash s)) ∧
    (p.color = some "#1A2B3C" →
      (Chatter.from_message m p).color = some 1715004) := by
  constructor
  · intro s hs hne
    simp [Chatter.from_message, hs, hne]
  · intro hs
    simp [Chatter.from_message, hs]
    decide

theorem chatter_color_is_hex_value_witness :
    (Chatter.from_message sampleMessage sampleProfile).color = some 1715004 :=
  (chatter_color_is_hex_value sampleMessage sampleProfile).2 rfl

/-- C9: the stored turbo flag is `true` exactly when the upstream
string value is the literal `"1"`, and `false` on every other value
(bot.py:176). -/
theorem chatter_turbo_iff_literal_one (m : TwitchMessage) (p : AuthorProfile) :
    ((Chatter.from_message m p).is_turbo = some true ↔ p.turbo = "1") ∧
    ((Chatter.from_message m p).is_turbo = some false ↔ p.turbo ≠ "1") := by
  constructor
  · simp [Chatter.from_message]
  · simp [Chatter.from_message]

theorem chatter_turbo_iff_literal_one_witness :
    (Chatter.from_message sampleMessage sampleProfile).is_turbo = some true :=
  (chatter_turbo_iff_literal_one sampleMessage sampleProfile).1.mpr rfl

/-- C10: an absent or empty color field yields a NULL stored color and
never reaches the hex conversion; conversely a non-NULL stored color
can only come from a non-empty color string through `hexVal`. -/
theorem chatter_color_empty_or_absent_is_null
    (m : TwitchMessage) (p : AuthorProfile) :
    ((p.color = none ∨ p.color = some "") →
      (Chatter.from_message m p).color = none) ∧
    (∀ v, (Chatter.from_message m p).color = some v →
      ∃ s, p.color = some s ∧ s ≠ "" ∧ hexVal (removeHash s) = some v) := by
  constructor
  · rintro (h | h) <;> simp [Chatter.from_message, h]
  · intro v hv
    match hc : p.color with
    | none => simp [Chatter.from_message, hc] at hv
    | some s =>
        by_cases hne : s = ""
        · subst hne
          simp [Chatter.from_message, hc] at hv
        · refine ⟨s, rfl, hne, ?_⟩
          simpa [Chatter.from_message, hc, hne] using hv

theorem chatter_color_empty_or_absent_is_null_witness :
    (Chatter.from_message sampleMessage emptyColorProfile).color = none :=
  (chatter_color_empty_or_absent_is_null sampleMessage emptyColorProfile).1
    (Or.inr rfl)

/-- C5: a reconciler run issues exactly one batched leave call, for
exactly `current − target`, when that set is non-empty and none
otherwise; exactly one batched join call, for exactly
`target − current`, when that set is non-empty and none otherwise;
channels in both sets are touched by no call; and a run with
`target = current` issues zero calls. -/
theorem refresh_channels_exact_batches (target current : Finset String) :
    ((refresh_channels (some target) current).filter NetCall.isPart =
      if (current \ target).Nonempty then [NetCall.part (current \ target)]
      else []) ∧
    ((refresh_channels (some target) current).filter NetCall.isJoin =
      if (target \ current).Nonempty then [NetCall.join (target \ current)]
      else []) ∧
    (∀ c ∈ target ∩ current, ∀ call ∈ refresh_channels (some target) current,
      c ∉ call.channels) ∧
    (target = current → refresh_channels (some target) current = []) := by
  refine ⟨?_, ?_, ?_, ?_⟩
  · by_cases hl : (current \ target).Nonempty <;>
      by_cases hj : (target \ current).Nonempty <;>
      simp [refresh_channels, hl, hj, NetCall.isPart]
  · by_cases hl : (current \ target).Nonempty <;>
      by_cases hj : (target \ current).Nonempty <;>
      simp [refresh_channels, hl, hj, NetCall.isJoin]
  · intro c hc call hcall
    have hct : c ∈ target := (Finset.mem_inter.mp hc).1
    have hcc : c ∈ current := (Finset.mem_inter.mp hc).2
    by_cases hl : (current \ target).Nonempty <;>
      by_cases hj : (target \ current).Nonempty <;>
      simp [refresh_channels, hl, hj] at hcall
    · rcases hcall with h | h <;> subst h <;>
        simp [NetCall.channels, Finset.mem_sdiff, hct, hcc]
    · subst hcall
      simp [NetCall.channels, Finset.mem_sdiff, hct]
    · subst hcall
      simp [NetCall.channels, Finset.mem_sdiff, hcc]
  · intro h
    subst h
    simp [refresh_channels]

theorem refresh_channels_exact_batches_witness :
    refresh_channels (some {"somechannel"}) {"somechannel"} = [] :=
  (refresh_channels_exact_batches {"somechannel"} {"somechannel"}).2.2.2 rfl

/-- C6 counterexample: channel-name comparison is not case-normalized
(bot.py:345-349; the source remarks "todo this repeatedly reconnects
if config gives uppercase"): with a desired set and a connected set
that differ only in letter case, the run issues a leave call and a
join call instead of the zero calls the claim requires. -/
theorem refresh_channels_case_mismatch_churn :
    refresh_channels (some {"Foo"}) {"foo"} =
      [NetCall.part {"foo"}, NetCall.join {"Foo"}] := by
  decide

/-- C1 divergence: the `session.add` calls of bot.py:297-309 run after
the `async with self.async_session.begin()` block has already
committed and closed the session at line 295, so the committed
transaction holds no writes.  Ingesting a message leaves the database
unchanged — the Message row lands only in the closed session's
never-flushed pending set — while the message counter is still
incremented. -/
theorem event_message_write_set_never_committed :
    (event_message emptyDB LogCounter.reset sampleMessage false 100 [40]).db
      = emptyDB ∧
    (event_message emptyDB LogCounter.reset sampleMessage false 100
      [40]).sessionLeak.messages = [Message.from_message sampleMessage] ∧
    (event_message emptyDB LogCounter.reset sampleMessage false 100
      [40]).counter.messages = 1 :=
  ⟨rfl, rfl, rfl⟩

/-- C3 divergence: on a first observation the dedup decision says the
candidate chatter snapshot must be persisted (no previous snapshot
exists), yet after ingestion the Chatter table is still empty, because
the `session.add` writes sit outside the committed transaction.  The
"persisted iff not field-equal to the latest stored snapshot"
invariant therefore fails at the very first message. -/
theorem chatter_snapshot_due_but_not_persisted :
    shouldPersistChatter
      (lastRow Chatter.name Chatter.timestamp emptyDB.chatters
        sampleMessage.author.name)
      (chatterRowOf sampleMessage) = true ∧
    (event_message emptyDB LogCounter.reset sampleMessage false 100
      [40]).db.chatters = [] ∧
    (event_message emptyDB LogCounter.reset sampleMessage false 100
      [40]).sessionLeak.chatters = [chatterRowOf sampleMessage] :=
  ⟨rfl, rfl, rfl⟩

/-- C7 divergence: ingesting a message whose first-message flag is set
stores zero FirstMessage rows, not exactly one: the
`session.add(FirstMessage(id=message.id))` of bot.py:301 runs on the
already-committed-and-closed session and is never flushed. -/
theorem first_message_marker_never_stored :
    sampleMessage.first = true ∧
    (event_message emptyDB LogCounter.reset sampleMessage false 100
      [40]).sessionLeak.firstMessages = [{ id := sampleMessage.id }] ∧
    (event_message emptyDB LogCounter.reset sampleMessage false 100
      [40]).db.firstMessages = [] :=
  ⟨rfl, rfl, rfl⟩

/-- C4: when the storage transaction raises `OperationalError` while
the channel has a live stream, the handler recovers — nothing escapes,
counters and database are untouched, and the uptime diagnostic
(current time, stream start, elapsed uptime) is produced.  But when no
stream is in progress `fetch_streams` returns an empty list and
`streams[0]` (bot.py:315) raises an uncaught IndexError past the
handler, with no diagnostic — the source's own "todo handle no stream
in progress" marks the gap. -/
theorem storage_failure_recovery_and_no_stream_gap :
    (event_message emptyDB LogCounter.reset sampleMessage true 100 [40]).raised
      = false ∧
    (event_message emptyDB LogCounter.reset sampleMessage true 100
      [40]).diagnostic
      = some { now := 100, stream_started := 40, stream_uptime := 60 } ∧
    (event_message emptyDB LogCounter.reset sampleMessage true 100 [40]).counter
      = LogCounter.reset ∧
    (event_message emptyDB LogCounter.reset sampleMessage true 100 [40]).db
      = emptyDB ∧
    (event_message emptyDB LogCounter.reset sampleMessage true 100 []).raised
      = true ∧
    (event_message emptyDB LogCounter.reset sampleMessage true 100 []).diagnostic
      = none :=
  ⟨rfl, rfl, rfl, rfl, rfl, rfl⟩

end Steno
